import Mathlib

/-!
# Verification of the i915 vGPU paravirtualization (PV) core

Shallow embedding of the guest-side PV layer from
`drivers/gpu/drm/i915/i915_vgpu.{c,h}` and
`drivers/gpu/drm/i915/intel_pv_submission.c`:

* the command-transport (CT) ring channel (`pv_command_buffer_write`,
  `pv_get_next_fence`, `wait_for_desc_update`, `pv_send`,
  `intel_vgpu_pv_send_command_buffer`),
* the PV address-space operations (`vgpu_pv_vma_action`,
  `ppgtt_bind_vma_pv`, `ggtt_bind_vma_pv`),
* shared-page setup and capability negotiation
  (`intel_vgpu_setup_shared_page`, `intel_vgpu_check_pv_caps`,
  `intel_vgpu_config_pv_caps`),
* the PV submission scheduler (`pv_submit`, `pv_dequeue`,
  `vgpu_pv_submission_tasklet`, `cancel_port_requests`,
  `pv_cancel_requests`).

Machine integers (`u32`) are modelled as `Nat` with explicit reduction
modulo `2^32` where the source can overflow.  The host side (GVT) is an
independent actor that writes into the shared page; it is modelled by
explicit parameters: a readback function for registers, a time-indexed
trace of the descriptor fence/status fields for the completion wait, and
an acknowledge bit for the submission slot.
-/

namespace I915PV

/-! ## Error numbers (Linux errno values, returned negated by the source) -/

def ENOMEM : Int := 12
def ENOSPC : Int := 28
def Eio : Int := 5
def ETIMEDOUT : Int := 110

/-! ## Constants from i915_vgpu.h -/

def PAGE_SIZE : Nat := 4096
def PV_MAJOR : Nat := 1
def PV_MINOR : Nat := 0
def PV_INTERRUPT_OFF : Nat := PAGE_SIZE / 256
def PV_ELSP_OFF : Nat := PAGE_SIZE / 8
def PV_DESC_OFF : Nat := PAGE_SIZE / 4
def PV_CMD_OFF : Nat := PAGE_SIZE / 2

/-- Message header encoding (DW0) -/
def PV_CT_MSG_LEN_SHIFT : Nat := 0
def PV_CT_MSG_LEN_MASK : Nat := 0x1F
def PV_CT_MSG_WRITE_FENCE_TO_DESC : Nat := 1 <<< 8
def PV_CT_MSG_ACTION_SHIFT : Nat := 16

/-- PV capability bits (enum pv_caps) -/
def PV_PPGTT : Nat := 1 <<< 0
def PV_GGTT : Nat := 1 <<< 1
def PV_SUBMISSION : Nat := 1 <<< 2
def PV_HW_CONTEXT : Nat := 1 <<< 3
def PV_INTERRUPT : Nat := 1 <<< 4

/-- PV action codes (enum intel_vgpu_pv_action), in declaration order. -/
def PV_ACTION_DEFAULT : Nat := 0
def PV_ACTION_PPGTT_L4_ALLOC : Nat := 1
def PV_ACTION_PPGTT_L4_CLEAR : Nat := 2
def PV_ACTION_PPGTT_L4_INSERT : Nat := 3
def PV_ACTION_PPGTT_BIND : Nat := 4
def PV_ACTION_PPGTT_UNBIND : Nat := 5
def PV_ACTION_GGTT_INSERT : Nat := 6
def PV_ACTION_GGTT_UNBIND : Nat := 7
def PV_ACTION_GGTT_BIND : Nat := 8
def PV_ACTION_ELSP_SUBMISSION : Nat := 9

/-- Execution-list port count and engine count, from
`gt/intel_engine_types.h` of the same kernel tree (the exact numbers are
a platform constant; they do not enter any capacity argument here). -/
def EXECLIST_MAX_PORTS : Nat := 2
def I915_NUM_ENGINES : Nat := 8

def U32_MOD : Nat := 2 ^ 32

/-! ## CT buffer descriptor and channel state

`struct vgpu_pv_ct_buffer_desc`: six u32 fields.  `head` is written by
the host (consumer), `tail` by the guest (producer), both byte offsets
into the data region.  The guest-side channel state bundles the
descriptor, the command-data array (`pv->ctb.cmds`, modelled as a
function from word index to word) and the fence counter
(`pv->next_fence`). -/

structure CTDesc where
  addr : Nat
  size : Nat
  head : Nat
  tail : Nat
  fence : Nat
  status : Nat
  deriving Repr, DecidableEq

structure PVChannel where
  desc : CTDesc
  cmds : Nat → Nat
  next_fence : Nat

/-- Write a list of words at successive word offsets modulo `size`,
returning the updated array and the final offset.  This is the common
shape of the three store/advance steps in `pv_command_buffer_write`. -/
def writeWords (cmds : Nat → Nat) (tail size : Nat) : List Nat → (Nat → Nat) × Nat
  | [] => (cmds, tail)
  | w :: ws =>
      writeWords (fun j => if j = tail then w % U32_MOD else cmds j) ((tail + 1) % size) size ws

/-- Model of `pv_command_buffer_write(pv, action, len, fence)`.

Computes `head`, `tail`, `size` in dwords from the descriptor, the used
space (`tail < head` meaning the data has wrapped), and refuses with
`-ENOSPC` when `used + len + 1 >= size` (the extra dword keeps
`head == tail` unambiguously "empty").  Otherwise stores the header
word, the fence word and `action[1..len-1]`, all modulo the ring size,
and publishes the new tail (back in bytes).  On failure nothing is
written and the descriptor is unchanged.

The u32 arithmetic of the source is represented with `Nat`: under the
descriptor invariant `0 ≤ head, tail < size` (asserted by the
GEM_BUG_ONs here and maintained by the protocol), the subtractions
`size - head` and `tail - head` cannot underflow and the sums stay far
below `2^32` (`size` is half a page), so `Nat` arithmetic is exact. -/
def pv_command_buffer_write (pv : PVChannel) (action : List Nat) (len : Nat)
    (fence : Nat) : Int × PVChannel :=
  let head := pv.desc.head / 4
  let tail := pv.desc.tail / 4
  let size := pv.desc.size / 4
  let used := if tail < head then (size - head) + tail else tail - head
  if used + len + 1 ≥ size then
    (-ENOSPC, pv)
  else
    let header := ((len <<< PV_CT_MSG_LEN_SHIFT) |||
                   PV_CT_MSG_WRITE_FENCE_TO_DESC |||
                   ((action.headD 0) <<< PV_CT_MSG_ACTION_SHIFT)) % U32_MOD
    let payload := (List.range (len - 1)).map (fun i => action.getD (i + 1) 0)
    let r := writeWords pv.cmds tail size (header :: fence :: payload)
    (0, { pv with cmds := r.1, desc := { pv.desc with tail := r.2 * 4 } })

/-- Model of `pv_get_next_fence(pv)`: pre-increment of the u32 fence counter;
returns the allocated fence and the updated channel. -/
def pv_get_next_fence (pv : PVChannel) : Nat × PVChannel :=
  let f := (pv.next_fence + 1) % U32_MOD
  (f, { pv with next_fence := f })

/-! ## Completion wait

The host asynchronously updates the descriptor `fence` and `status`
fields.  This concurrent actor is modelled as a trace
`hostDesc : Nat → Nat × Nat` giving the (fence, status) pair the guest
observes at poll step `t`, with a bounded number of poll steps standing
for the 5 us busy-poll plus 10 ms bounded wait of the source. -/

/-- Index of the first poll step `< steps` at which the observed fence
equals the awaited fence. -/
def firstMatch (hostDesc : Nat → Nat × Nat) (fence : Nat) : Nat → Option Nat
  | 0 => none
  | Nat.succ n =>
      match firstMatch hostDesc fence n with
      | some t => some t
      | none => if (hostDesc n).1 = fence then some n else none

/-- Model of `wait_for_desc_update(desc, fence, status)`: poll until the
descriptor fence equals `fence`; on success return 0 and the status
observed at the matching step, on timeout return `-ETIMEDOUT` (the
source still stores the last observed status into `*status`). -/
def wait_for_desc_update (hostDesc : Nat → Nat × Nat) (steps : Nat)
    (fence : Nat) : Int × Nat :=
  match firstMatch hostDesc fence steps with
  | some t => (0, (hostDesc t).2)
  | none => (-ETIMEDOUT, (hostDesc steps).2)

/-- Model of `pv_send(dev_priv, action, len, status)`: allocate the next fence,
write the message, notify the host (a doorbell write, no guest-visible
state), wait for the fence to come back, and surface a nonzero status
as `-Eio`.  Returns (err, status out-parameter, channel state);
`status0` is the caller-initialized value of the out-parameter. -/
def pv_send (pv : PVChannel) (action : List Nat) (len : Nat)
    (hostDesc : Nat → Nat × Nat) (steps : Nat) (status0 : Nat) :
    Int × Nat × PVChannel :=
  let fr := pv_get_next_fence pv
  let fence := fr.1
  let wr := pv_command_buffer_write fr.2 action len fence
  if wr.1 < 0 then
    (wr.1, status0, wr.2)
  else
    let wt := wait_for_desc_update hostDesc steps fence
    if wt.1 < 0 then
      (wt.1, wt.2, wr.2)
    else if wt.2 ≠ 0 then
      (-Eio, wt.2, wr.2)
    else
      ((wt.2 : Int), wt.2, wr.2)

/-- Model of `intel_vgpu_pv_send_command_buffer`: takes the channel lock (sends
are serialized, so the sequential model is faithful), initializes the
status out-parameter to `~0`, calls `pv_send` and logs on error. -/
def intel_vgpu_pv_send_command_buffer (pv : PVChannel) (action : List Nat)
    (len : Nat) (hostDesc : Nat → Nat × Nat) (steps : Nat) : Int × PVChannel :=
  let r := pv_send pv action len hostDesc steps (U32_MOD - 1)
  (r.1, r.2.2)

/-! ## PV address-space operations

`struct pv_vma` is a packed 32-byte record (8 dwords): size (pages),
flags, start, dma_addrs, pml4.  `vgpu_pv_vma_action` marshals it after
an action dword and hands the 9-dword message to the channel.  The
assembly from a `struct i915_vma` (node start/size, sg list, page-table
root) touches only external collaborators, so the vma is modelled by
the fields the function reads; the single-page path is modelled (the
multi-page path only changes the payload contents, not the control
flow of any claim here). -/

def lo32 (x : Nat) : Nat := x % U32_MOD
def hi32 (x : Nat) : Nat := (x / U32_MOD) % U32_MOD

structure PvVma where
  size : Nat
  flags : Nat
  start : Nat
  dma_addrs : Nat
  pml4 : Nat
  deriving Repr, DecidableEq

/-- The `memcpy(&data[1], &pvvma, sizeof(pvvma))` on the packed
little-endian struct: the 8 dwords of the record in field order. -/
def pv_vma_words (v : PvVma) : List Nat :=
  [lo32 v.size, lo32 v.flags,
   lo32 v.start, hi32 v.start,
   lo32 v.dma_addrs, hi32 v.dma_addrs,
   lo32 v.pml4, hi32 v.pml4]

/-- The fields of `struct i915_vma` that `vgpu_pv_vma_action` reads
(single-page case): the node start, the page count and the first dma
address, plus the page-table root of the owning address space. -/
structure VmaModel where
  node_start : Nat
  num_pages : Nat
  dma_addr : Nat
  pml4 : Nat
  deriving Repr, DecidableEq

/-- Model of `vgpu_pv_vma_action(vma, action, flags, pte_flag)` for a one-page
vma: build the `pv_vma` record (the page-table root is only filled in
for the PPGTT actions; the source leaves the field uninitialized for
GGTT actions, modelled as 0) and send `[action, pvvma...]` (9 dwords)
through `intel_vgpu_pv_send`, which is the channel `send` callback
`intel_vgpu_pv_send_command_buffer`. -/
def vgpu_pv_vma_action (pv : PVChannel) (hostDesc : Nat → Nat × Nat)
    (steps : Nat) (vma : VmaModel) (action : Nat) (flags : Nat)
    (pte_flag : Nat) : Int × PVChannel :=
  let pml4 := if action = PV_ACTION_PPGTT_BIND ∨ action = PV_ACTION_PPGTT_UNBIND ∨
                 action = PV_ACTION_PPGTT_L4_INSERT then vma.pml4 else 0
  let pvvma : PvVma :=
    { size := vma.num_pages, flags := flags, start := vma.node_start,
      dma_addrs := vma.dma_addr ||| pte_flag, pml4 := pml4 }
  intel_vgpu_pv_send_command_buffer pv (action :: pv_vma_words pvvma) 9 hostDesc steps

/-- Model of `ppgtt_bind_vma_pv(vma, cache_level, flags)`: issues the
`PV_ACTION_PPGTT_BIND` action through the channel and then returns 0
unconditionally — the result of `vgpu_pv_vma_action` is discarded by
the source. -/
def ppgtt_bind_vma_pv (pv : PVChannel) (hostDesc : Nat → Nat × Nat)
    (steps : Nat) (vma : VmaModel) (flags : Nat) (pte_encode : Nat) :
    Int × PVChannel :=
  let r := vgpu_pv_vma_action pv hostDesc steps vma PV_ACTION_PPGTT_BIND flags pte_encode
  (0, r.2)

/-- Model of `ggtt_bind_vma_pv(vma, cache_level, flags)`: issues the
`PV_ACTION_GGTT_BIND` action; the source assigns the result to a local
`ret` that is never used and returns 0 unconditionally. -/
def ggtt_bind_vma_pv (pv : PVChannel) (hostDesc : Nat → Nat × Nat)
    (steps : Nat) (vma : VmaModel) (pte_flags : Nat) : Int × PVChannel :=
  let ret := vgpu_pv_vma_action pv hostDesc steps vma PV_ACTION_GGTT_BIND 0 pte_flags
  (0, ret.2)

/-! ## Shared-page setup and capability negotiation

`intel_vgpu_setup_shared_page` allocates one zeroed page, publishes its
physical address through the `shared_page_gpa` register, reads the
register back to confirm, notifies the host (which then fills the
version record at offset 0 of the page), checks the version handshake,
and on success partitions the page and constructs the channel.  The
host and the allocator are modelled by an environment record. -/

structure SetupEnv where
  /-- physical address of the zeroed page `get_zeroed_page` returns;
  `none` models allocation failure. -/
  pageAlloc : Option Nat
  /-- what `readq(shared_page_gpa)` returns after `writeq x`. -/
  readback : Nat → Nat
  /-- version record the host writes into the page after the
  `VGT_G2V_SHARED_PAGE_SETUP` notification. -/
  hostVerMajor : Nat
  hostVerMinor : Nat
  /-- whether `kzalloc` of the pv structure succeeds. -/
  pvAllocOK : Bool

/-- The constructed `struct i915_virtual_gpu_pv`: sub-region offsets
into the shared page, the per-engine slot `submitted` flags, the CT
descriptor and the fence counter.  All fields that `kzalloc` and
`get_zeroed_page` leave at zero start at zero. -/
structure PVSetup where
  shared_page_gpa : Nat
  enabled : Bool
  irq_off : Nat
  elsp_off : List Nat
  elsp_submitted : List Bool
  desc_off : Nat
  cmds_off : Nat
  desc : CTDesc
  next_fence : Nat
  deriving Repr, DecidableEq

/-- Packed size of `struct pv_submission`:
`EXECLIST_MAX_PORTS` u64 descriptors + as many u64 context addresses +
one `bool` byte. -/
def PV_SUBMISSION_SIZE : Nat := 8 * EXECLIST_MAX_PORTS + 8 * EXECLIST_MAX_PORTS + 1

structure SetupResult where
  ret : Int
  pageAllocated : Bool
  pageFreed : Bool
  pv : Option PVSetup
  deriving Repr, DecidableEq

/-- Model of `intel_vgpu_setup_shared_page(dev_priv, shared_area)`. -/
def intel_vgpu_setup_shared_page (env : SetupEnv) : SetupResult :=
  match env.pageAlloc with
  | none => { ret := -ENOMEM, pageAllocated := false, pageFreed := false, pv := none }
  | some gpa =>
      if env.readback gpa ≠ gpa then
        { ret := -Eio, pageAllocated := true, pageFreed := true, pv := none }
      else if env.hostVerMajor ≠ PV_MAJOR ∨ env.hostVerMinor ≠ PV_MINOR then
        { ret := -Eio, pageAllocated := true, pageFreed := true, pv := none }
      else if ¬env.pvAllocOK then
        { ret := -ENOMEM, pageAllocated := true, pageFreed := true, pv := none }
      else
        { ret := 0, pageAllocated := true, pageFreed := false,
          pv := some
            { shared_page_gpa := gpa
              enabled := true
              irq_off := PV_INTERRUPT_OFF
              elsp_off := (List.range I915_NUM_ENGINES).map
                (fun i => PV_ELSP_OFF + PV_SUBMISSION_SIZE * i)
              elsp_submitted := (List.range I915_NUM_ENGINES).map (fun _ => false)
              desc_off := PV_DESC_OFF
              cmds_off := PV_CMD_OFF
              desc := { addr := PV_CMD_OFF, size := PAGE_SIZE / 2,
                        head := 0, tail := 0, fence := 0, status := 0 }
              next_fence := 0 } }

/-- Model of `intel_vgpu_check_pv_caps(dev_priv, shared_area)`.

`hasPVcap` is `vgpu.caps & VGT_CAPS_PV`; `guest_pv_caps` the
guest-requested bitmask, `gvt_pv_caps` the host-offered bitmask read
from the `pv_caps` register.  Returns (negotiation success, the adopted
`vgpu.pv_caps` value, the constructed pv structure if any). -/
def intel_vgpu_check_pv_caps (hasPVcap : Bool) (guest_pv_caps gvt_pv_caps : Nat)
    (env : SetupEnv) : Bool × Nat × Option PVSetup :=
  if ¬hasPVcap then
    (false, guest_pv_caps, none)
  else
    let pvcaps := Nat.land guest_pv_caps gvt_pv_caps
    if pvcaps = 0 then
      (false, pvcaps, none)
    else
      let r := intel_vgpu_setup_shared_page env
      if r.ret ≠ 0 then
        (false, 0, none)
      else
        (true, pvcaps, r.pv)

/-- Model of `intel_vgpu_enabled_pv_caps(dev_priv, cap)`. -/
def intel_vgpu_enabled_pv_caps (active hasPVcap : Bool) (pv_caps cap : Nat) : Bool :=
  active && hasPVcap && (Nat.land pv_caps cap ≠ 0)

/-- Model of `intel_vgpu_config_pv_caps(dev_priv, cap, data)`: installs the PV
operation table for `cap` (ppgtt/ggtt vm ops, submission tasklet,
context ops) exactly when `intel_vgpu_enabled_pv_caps` holds; returns
whether the PV table was installed. -/
def intel_vgpu_config_pv_caps (active hasPVcap : Bool) (pv_caps cap : Nat) : Bool :=
  if ¬intel_vgpu_enabled_pv_caps active hasPVcap pv_caps cap then
    false
  else
    true

/-! ## PV submission scheduler (intel_pv_submission.c)

Per-engine state: the execlists inflight port array (at most
`EXECLIST_MAX_PORTS` occupied ports, modelled as the list of occupied
ports in order), the priority queue (priolists in priority order, each
with its priority value and its requests in list order), the engine
`active.requests` list of submitted-but-not-retired requests, and the
per-engine shared-page submission slot.

Requests are modelled by the fields this code reads, plus event logs
standing for the external calls it makes: `inEvents` records
`schedule_in` (`i915_request_get`), `outEvents` records `schedule_out`
(`i915_request_put`), `timeline` records `__i915_request_submit`, and
`failedEio` records a request being marked failed with `-Eio` and
completed (`i915_request_skip(rq, -Eio)`/`dma_fence_set_error` +
`i915_request_mark_complete`). -/

def INT_MIN : Int := -(2 ^ 31)

structure Request where
  id : Nat
  ctx : Nat
  completed : Bool
  lrc_desc : Nat
  ctx_phys : Nat
  deriving Repr, DecidableEq

def defaultReq : Request :=
  { id := 0, ctx := 0, completed := false, lrc_desc := 0, ctx_phys := 0 }

structure PVSubSlot where
  descs : List Nat
  ctx_gpa : List Nat
  submitted : Bool
  deriving Repr, DecidableEq

structure SchedState where
  inflight : List Request
  queue : List (Int × List Request)
  active : List Request
  slot : PVSubSlot
  queue_priority_hint : Int
  inEvents : List Nat
  outEvents : List Nat
  timeline : List Nat
  failedEio : List Nat
  deriving Repr, DecidableEq

/-- Model of `pv_submit(engine, out, end)`: zero the slot descriptor array
(`memset` covers `descs` only), write one context descriptor
(`execlists_update_context`, whose ring-tail bookkeeping is external;
the resulting descriptor value is modelled by `lrc_desc`) and one
context physical address per port, mark the slot `submitted`, ring the
doorbell and busy-wait (bounded) for the host to clear the flag.
`hostAck` tells whether the host cleared the flag within the bound; on
timeout the source only logs. -/
def pv_submit (st : SchedState) (ports : List Request) (hostAck : Bool) : SchedState :=
  let n := ports.length
  let descs := (List.range EXECLIST_MAX_PORTS).map
    (fun i => if i < n then (ports.getD i defaultReq).lrc_desc else 0)
  let gpas := (List.range EXECLIST_MAX_PORTS).map
    (fun i => if i < n then (ports.getD i defaultReq).ctx_phys
              else st.slot.ctx_gpa.getD i 0)
  let slot1 : PVSubSlot := { descs := descs, ctx_gpa := gpas, submitted := true }
  let slot2 := if hostAck then { slot1 with submitted := false } else slot1
  { st with slot := slot2 }

/-- Accumulator of the `pv_dequeue` queue walk. -/
structure DequeueAcc where
  placed : List Request
  last : Option Request
  consumed : List Request
  submit : Bool
  stopped : Bool
  deriving Repr, DecidableEq

/-- The inner `priolist_for_each_request_consume` loop of `pv_dequeue`:
on a context boundary, either stop when the port cursor reached the
last port (`port == last_port`, the request stays queued) or place
`last` into the next port (`schedule_in` is logged by the caller from
`placed`); every visited request is unlinked and submitted
(`__i915_request_submit`).  Returns the accumulator and the requests
left in this priolist. -/
def dequeueReqs (startIdx : Nat) (acc : DequeueAcc) :
    List Request → DequeueAcc × List Request
  | [] => (acc, [])
  | rq :: rest =>
      match acc.last with
      | some l =>
          if rq.ctx ≠ l.ctx then
            if startIdx + acc.placed.length = EXECLIST_MAX_PORTS - 1 then
              ({ acc with stopped := true }, rq :: rest)
            else
              dequeueReqs startIdx
                { acc with placed := acc.placed ++ [l],
                           consumed := acc.consumed ++ [rq],
                           submit := true, last := some rq } rest
          else
            dequeueReqs startIdx
              { acc with consumed := acc.consumed ++ [rq],
                         submit := true, last := some rq } rest
      | none =>
          dequeueReqs startIdx
            { acc with consumed := acc.consumed ++ [rq],
                       submit := true, last := some rq } rest

/-- The outer `while (rb = rb_first_cached(...))` loop of `pv_dequeue`:
fully-consumed priolists are erased and freed; a priolist interrupted
by the `goto done` keeps its remaining requests and becomes the new
head of the queue, and its priority is the new
`queue_priority_hint` (`INT_MIN` when the queue drained). -/
def dequeuePriolists (startIdx : Nat) (acc : DequeueAcc) :
    List (Int × List Request) → DequeueAcc × List (Int × List Request) × Int
  | [] => (acc, [], INT_MIN)
  | (prio, reqs) :: rest =>
      let r := dequeueReqs startIdx acc reqs
      if r.1.stopped then
        (r.1, (prio, r.2) :: rest, prio)
      else
        dequeuePriolists startIdx r.1 rest

/-- Model of `pv_dequeue(engine)`: when both ports are occupied, return at once;
otherwise walk the priority queue grouping consecutive requests of one
context into one port, and if anything was submitted hand the port
array from the first free port through the CT slot to `pv_submit`. -/
def pv_dequeue (st : SchedState) (hostAck : Bool) : SchedState :=
  if 2 ≤ st.inflight.length then st
  else
    let startIdx := st.inflight.length
    let acc0 : DequeueAcc :=
      { placed := [], last := none, consumed := [], submit := false, stopped := false }
    let r := dequeuePriolists startIdx acc0 st.queue
    let acc := r.1
    let st1 := { st with
      queue := r.2.1
      queue_priority_hint := r.2.2
      active := st.active ++ acc.consumed
      timeline := st.timeline ++ acc.consumed.map Request.id }
    if acc.submit then
      match acc.last with
      | some l =>
          let portsAll := acc.placed ++ [l]
          let st2 := { st1 with
            inflight := st1.inflight ++ portsAll
            inEvents := st1.inEvents ++ portsAll.map Request.id }
          pv_submit st2 portsAll hostAck
      | none => st1
    else st1

/-- Leading completed requests of the port array are retired
(`schedule_out`, one `i915_request_put` each) and the array is
compacted (`memmove`). -/
def reclaimPorts (st : SchedState) : SchedState :=
  { st with
    inflight := st.inflight.dropWhile Request.completed
    outEvents := st.outEvents ++ (st.inflight.takeWhile Request.completed).map Request.id }

/-- Model of `vgpu_pv_submission_tasklet(data)`: under the engine lock, first
reclaim completed ports, then dequeue only if the engine slot is not
currently marked `submitted`. -/
def vgpu_pv_submission_tasklet (st : SchedState) (hostAck : Bool) : SchedState :=
  let st1 := reclaimPorts st
  if ¬st1.slot.submitted then pv_dequeue st1 hostAck else st1

/-- Model of `cancel_port_requests(execlists)`: `schedule_out` every request in
the port array and clear it. -/
def cancel_port_requests (st : SchedState) : SchedState :=
  { st with
    outEvents := st.outEvents ++ st.inflight.map Request.id
    inflight := [] }

/-- Model of `pv_cancel_requests(engine)`: cancel the ports, mark every request
on `engine->active.requests` as skipped with `-Eio` and complete, then
flush the whole priority queue — each queued request is submitted to
the timeline (`__i915_request_submit`), failed with `-Eio` and
completed, and every priolist is erased — and drop the priority
hint to `INT_MIN`. -/
def pv_cancel_requests (st : SchedState) : SchedState :=
  let st1 := cancel_port_requests st
  let st2 := { st1 with failedEio := st1.failedEio ++ st1.active.map Request.id }
  let drained := (st2.queue.map Prod.snd).flatten
  { st2 with
    timeline := st2.timeline ++ drained.map Request.id
    failedEio := st2.failedEio ++ drained.map Request.id
    active := st2.active ++ drained
    queue := []
    queue_priority_hint := INT_MIN }

/-! ## Theorems -/

/-- C1: for every call of the CT ring write with a message of `len`
words, with `used` the occupancy computed from head and tail
(`tail - head` when `tail ≥ head`, else `size - head + tail`, in
words), the write fails with `-ENOSPC` if and only if
`used + len + 1 ≥ size`, and on that failure the whole channel state —
in particular the descriptor tail — is unchanged, so nothing past tail
is committed. -/
theorem pv_command_buffer_write_nospc_iff (pv : PVChannel) (action : List Nat)
    (len fence : Nat) :
    (let head := pv.desc.head / 4
     let tail := pv.desc.tail / 4
     let size := pv.desc.size / 4
     let used := if head ≤ tail then tail - head else (size - head) + tail
     ((pv_command_buffer_write pv action len fence).1 = -ENOSPC ↔
        used + len + 1 ≥ size) ∧
     (used + len + 1 ≥ size →
        (pv_command_buffer_write pv action len fence).2 = pv ∧
        (pv_command_buffer_write pv action len fence).2.desc.tail = pv.desc.tail)) := by
  dsimp only
  have hused :
      (if pv.desc.head / 4 ≤ pv.desc.tail / 4 then
         pv.desc.tail / 4 - pv.desc.head / 4
       else (pv.desc.size / 4 - pv.desc.head / 4) + pv.desc.tail / 4) =
      (if pv.desc.tail / 4 < pv.desc.head / 4 then
         (pv.desc.size / 4 - pv.desc.head / 4) + pv.desc.tail / 4
       else pv.desc.tail / 4 - pv.desc.head / 4) := by
    split_ifs <;> omega
  rw [hused]
  unfold pv_command_buffer_write
  dsimp only
  split_ifs with h1 h2 h3
  · exact ⟨⟨fun _ => h2, fun _ => rfl⟩, fun _ => ⟨rfl, rfl⟩⟩
  · exact ⟨⟨fun habs => absurd (show (0 : Int) = -ENOSPC from habs) (by decide),
        fun hge => absurd hge h2⟩, fun hge => absurd hge h2⟩
  · exact ⟨⟨fun _ => h3, fun _ => rfl⟩, fun _ => ⟨rfl, rfl⟩⟩
  · exact ⟨⟨fun habs => absurd (show (0 : Int) = -ENOSPC from habs) (by decide),
        fun hge => absurd hge h3⟩, fun hge => absurd hge h3⟩

/-- C4: on a channel of data capacity 64 words starting empty, writing
a 10-payload-word action message (11 action dwords: the action code
dword is folded into the header) succeeds and advances tail by exactly
12 words (48 bytes: header and fence included); once occupancy has
grown so that the free space minus the reserved dword is insufficient,
the same write fails with `-ENOSPC` and tail is unchanged; after the
host advances head past the first message (12 words), the retry of
that write succeeds. -/
theorem pv_command_buffer_write_scenario :
    (let pv0 : PVChannel :=
      { desc := { addr := 2048, size := 256, head := 0, tail := 0,
                  fence := 0, status := 0 },
        cmds := fun _ => 0, next_fence := 0 }
     let a : List Nat := [3, 101, 102, 103, 104, 105, 106, 107, 108, 109, 110]
     let w1 := pv_command_buffer_write pv0 a 11 1
     let w2 := pv_command_buffer_write w1.2 a 11 2
     let w3 := pv_command_buffer_write w2.2 a 11 3
     let w4 := pv_command_buffer_write w3.2 a 11 4
     let w5 := pv_command_buffer_write w4.2 a 11 5
     let w6 := pv_command_buffer_write w5.2 a 11 6
     let hostAdvanced : PVChannel :=
       { w6.2 with desc := { w6.2.desc with head := 48 } }
     let w7 := pv_command_buffer_write hostAdvanced a 11 6
     w1.1 = 0 ∧ w1.2.desc.tail = 48 ∧
     w5.1 = 0 ∧ w5.2.desc.tail = 240 ∧
     w6.1 = -ENOSPC ∧ w6.2.desc.tail = 240 ∧
     w7.1 = 0 ∧ w7.2.desc.tail = 32) := by
  decide

/-- A fence that `firstMatch` reports at step `t` really was observed
equal to the awaited fence at step `t`, and `t` is within the bound. -/
theorem firstMatch_spec (hostDesc : Nat → Nat × Nat) (fence : Nat) :
    ∀ steps t, firstMatch hostDesc fence steps = some t →
      (hostDesc t).1 = fence ∧ t < steps := by
  intro steps
  induction steps with
  | zero => intro t h; simp [firstMatch] at h
  | succ n ih =>
      intro t h
      unfold firstMatch at h
      cases hrec : firstMatch hostDesc fence n with
      | some u =>
          rw [hrec] at h
          obtain ⟨h1, h2⟩ := ih u hrec
          cases h
          exact ⟨h1, Nat.lt_succ_of_lt h2⟩
      | none =>
          rw [hrec] at h
          by_cases hc : (hostDesc n).1 = fence
          · simp [hc] at h
            exact ⟨h ▸ hc, h ▸ Nat.lt_succ_self n⟩
          · simp [hc] at h

/-- C2 (amended): fence allocation and completion matching for two
consecutive sends, below the u32 wrap point.  The first send allocates
`next_fence + 1` and the second `next_fence + 2`, strictly increasing;
and whenever the descriptor write succeeds and the fence wait matches
at poll step `t`, the status the send returns through its out-parameter
is exactly the descriptor status observed at `t`, a step at which the
descriptor fence equalled this send's own fence. -/
theorem pv_send_fence_monotone_matched (pv : PVChannel) (action : List Nat)
    (len steps status0 : Nat) (hostDesc : Nat → Nat × Nat) (t : Nat)
    (hwrap : pv.next_fence + 2 < U32_MOD)
    (hw : (pv_command_buffer_write (pv_get_next_fence pv).2 action len
            (pv_get_next_fence pv).1).1 = 0)
    (hm : firstMatch hostDesc (pv_get_next_fence pv).1 steps = some t) :
    (pv_get_next_fence pv).1 = pv.next_fence + 1 ∧
    (pv_get_next_fence (pv_get_next_fence pv).2).1 = pv.next_fence + 2 ∧
    pv.next_fence < (pv_get_next_fence pv).1 ∧
    (pv_get_next_fence pv).1 < (pv_get_next_fence (pv_get_next_fence pv).2).1 ∧
    (hostDesc t).1 = (pv_get_next_fence pv).1 ∧
    (pv_send pv action len hostDesc steps status0).2.1 = (hostDesc t).2 := by
  have hfst : ∀ q : PVChannel, (pv_get_next_fence q).1 = (q.next_fence + 1) % U32_MOD :=
    fun _ => rfl
  have hsnd : ∀ q : PVChannel,
      (pv_get_next_fence q).2.next_fence = (q.next_fence + 1) % U32_MOD :=
    fun _ => rfl
  have h1 : (pv_get_next_fence pv).1 = pv.next_fence + 1 :=
    (hfst pv).trans (Nat.mod_eq_of_lt (by omega))
  have h1s : (pv_get_next_fence pv).2.next_fence = pv.next_fence + 1 :=
    (hsnd pv).trans (Nat.mod_eq_of_lt (by omega))
  have h2 : (pv_get_next_fence (pv_get_next_fence pv).2).1 = pv.next_fence + 2 := by
    rw [hfst _, h1s]
    exact Nat.mod_eq_of_lt (by omega)
  obtain ⟨hmf, _⟩ := firstMatch_spec hostDesc _ steps t hm
  refine ⟨h1, h2, by omega, by omega, hmf, ?_⟩
  simp only [pv_send, wait_for_desc_update]
  rw [hw, hm]
  by_cases hs : (hostDesc t).2 = 0
  · simp [hs]
  · simp [hs]

/-- Shared concrete fixtures: an empty 64-data-word channel, a 2-dword
action, and a host trace that posts fence 1 with status 7 at step 1. -/
def chanW : PVChannel :=
  { desc := { addr := 2048, size := 256, head := 0, tail := 0,
              fence := 0, status := 0 },
    cmds := fun _ => 0, next_fence := 0 }

def actW : List Nat := [1, 5]

def hostW : Nat → Nat × Nat := fun t => if t = 0 then (0, 0) else (1, 7)

theorem pv_send_fence_monotone_matched_witness :
    (pv_get_next_fence chanW).1 = chanW.next_fence + 1 ∧
    (pv_get_next_fence (pv_get_next_fence chanW).2).1 = chanW.next_fence + 2 ∧
    chanW.next_fence < (pv_get_next_fence chanW).1 ∧
    (pv_get_next_fence chanW).1 < (pv_get_next_fence (pv_get_next_fence chanW).2).1 ∧
    (hostW 1).1 = (pv_get_next_fence chanW).1 ∧
    (pv_send chanW actW 2 hostW 3 0).2.1 = (hostW 1).2 :=
  pv_send_fence_monotone_matched chanW actW 2 3 0 hostW 1 (by decide) (by decide)
    (by decide)

/-- C2 (counterexample to the claim as stated): the fence counter is a
32-bit pre-increment, so from a channel whose counter has reached
`2^32 - 2` a successful send observes fence `2^32 - 1` and the next
send observes fence 0 — consecutive sends do not observe strictly
increasing fence values at the wrap. -/
theorem pv_send_fence_wrap_counterexample :
    (let pv : PVChannel :=
      { desc := { addr := 2048, size := 256, head := 0, tail := 0,
                  fence := 0, status := 0 },
        cmds := fun _ => 0, next_fence := U32_MOD - 2 }
     let host : Nat → Nat × Nat := fun _ => (U32_MOD - 1, 0)
     let s1 := pv_send pv [1, 5] 2 host 1 0
     (pv_get_next_fence pv).1 = U32_MOD - 1 ∧
     s1.1 = 0 ∧
     s1.2.2.next_fence = U32_MOD - 1 ∧
     (pv_get_next_fence s1.2.2).1 = 0 ∧
     ¬((pv_get_next_fence pv).1 < (pv_get_next_fence s1.2.2).1)) := by
  decide

/-- C5: whenever the descriptor write succeeds and the fence wait
matches within the bound, the value `pv_send` returns reflects the
host-written status word: status 0 yields 0 (success) and any nonzero
status yields `-Eio`, even though write, notify and fence match all
succeeded. -/
theorem pv_send_status_surfaced (pv : PVChannel) (action : List Nat)
    (len steps status0 : Nat) (hostDesc : Nat → Nat × Nat) (t : Nat)
    (hw : (pv_command_buffer_write (pv_get_next_fence pv).2 action len
            (pv_get_next_fence pv).1).1 = 0)
    (hm : firstMatch hostDesc (pv_get_next_fence pv).1 steps = some t) :
    (pv_send pv action len hostDesc steps status0).1 =
      (if (hostDesc t).2 = 0 then 0 else -Eio) := by
  simp only [pv_send, wait_for_desc_update]
  rw [hw, hm]
  by_cases hs : (hostDesc t).2 = 0
  · simp [hs]
  · simp [hs]

theorem pv_send_status_surfaced_witness :
    ((pv_send chanW actW 2 hostW 3 0).1 = (if (hostW 1).2 = 0 then 0 else -Eio)) ∧
    ((pv_send chanW actW 2 (fun _ => (1, 0)) 3 0).1 =
      (if ((fun (_ : Nat) => ((1 : Nat), (0 : Nat))) 0).2 = 0 then 0 else -Eio)) :=
  ⟨pv_send_status_surfaced chanW actW 2 3 0 hostW 1 (by decide) (by decide),
   pv_send_status_surfaced chanW actW 2 3 0 (fun _ => (1, 0)) 0 (by decide) (by decide)⟩

/-- A channel whose data ring already holds 60 of its 64 words, so the
9-dword `pv_vma` message cannot fit (60 + 9 + 1 ≥ 64) and the
channel send fails with `-ENOSPC`. -/
def chanFull : PVChannel :=
  { desc := { addr := 2048, size := 256, head := 0, tail := 240,
              fence := 0, status := 0 },
    cmds := fun _ => 0, next_fence := 0 }

def vmaW : VmaModel :=
  { node_start := 4096, num_pages := 1, dma_addr := 65536, pml4 := 8192 }

/-- C3: at a state where the underlying CT send fails (`-ENOSPC`, ring
full), the PV vma action reports the failure, but both bind operations
discard it and return 0 (success) to their caller — the bind paths do
not propagate transport errors. -/
theorem bind_vma_pv_swallows_send_error :
    (vgpu_pv_vma_action chanFull hostW 3 vmaW PV_ACTION_PPGTT_BIND 0 0).1 = -ENOSPC ∧
    (vgpu_pv_vma_action chanFull hostW 3 vmaW PV_ACTION_GGTT_BIND 0 0).1 = -ENOSPC ∧
    (ppgtt_bind_vma_pv chanFull hostW 3 vmaW 0 0).1 = 0 ∧
    (ggtt_bind_vma_pv chanFull hostW 3 vmaW 0).1 = 0 := by
  decide

/-- C6: for an environment in which both allocations succeed, shared
page setup fails with `-Eio` and releases the page (PV stays disabled:
no pv structure) whenever the physical address read back differs from
the address written or the host-written version record differs from
PV_MAJOR/PV_MINOR; when the round trip matches and the versions agree,
it returns 0 with the page retained (owned by the pv structure — no
leak, no free), and the page is partitioned into the sub-regions:
version record at offset 0 of the page with the interrupt area at
PAGE/256, submission slots at PAGE/8 (stride the packed size of one
slot record), the CT descriptor at PAGE/4 sized and based on the data
area at PAGE/2. -/
theorem intel_vgpu_setup_shared_page_roundtrip (env : SetupEnv) (gpa : Nat)
    (halloc : env.pageAlloc = some gpa) (hpa : env.pvAllocOK = true) :
    ((env.readback gpa ≠ gpa ∨ env.hostVerMajor ≠ PV_MAJOR ∨
        env.hostVerMinor ≠ PV_MINOR) →
      (intel_vgpu_setup_shared_page env).ret = -Eio ∧
      (intel_vgpu_setup_shared_page env).pageFreed = true ∧
      (intel_vgpu_setup_shared_page env).pv = none) ∧
    (env.readback gpa = gpa → env.hostVerMajor = PV_MAJOR →
      env.hostVerMinor = PV_MINOR →
      (intel_vgpu_setup_shared_page env).ret = 0 ∧
      (intel_vgpu_setup_shared_page env).pageAllocated = true ∧
      (intel_vgpu_setup_shared_page env).pageFreed = false ∧
      (intel_vgpu_setup_shared_page env).pv = some
        { shared_page_gpa := gpa
          enabled := true
          irq_off := PV_INTERRUPT_OFF
          elsp_off := (List.range I915_NUM_ENGINES).map
            (fun i => PV_ELSP_OFF + PV_SUBMISSION_SIZE * i)
          elsp_submitted := (List.range I915_NUM_ENGINES).map (fun _ => false)
          desc_off := PV_DESC_OFF
          cmds_off := PV_CMD_OFF
          desc := { addr := PV_CMD_OFF, size := PAGE_SIZE / 2,
                    head := 0, tail := 0, fence := 0, status := 0 }
          next_fence := 0 }) := by
  constructor
  · intro hbad
    unfold intel_vgpu_setup_shared_page
    rw [halloc]
    dsimp only
    by_cases hrb : env.readback gpa ≠ gpa
    · simp [hrb]
    · have hver : env.hostVerMajor ≠ PV_MAJOR ∨ env.hostVerMinor ≠ PV_MINOR := by
        rcases hbad with h | h | h
        · exact absurd h hrb
        · exact Or.inl h
        · exact Or.inr h
      simp [hrb, hver]
  · intro hrb hvM hvm
    unfold intel_vgpu_setup_shared_page
    rw [halloc]
    dsimp only
    rw [if_neg (by simp [hrb]), if_neg (by simp [hvM, hvm]), if_neg (by simp [hpa])]
    exact ⟨rfl, rfl, rfl, rfl⟩

/-- A host environment that plays the protocol correctly. -/
def envGood : SetupEnv :=
  { pageAlloc := some 123904, readback := fun x => x,
    hostVerMajor := 1, hostVerMinor := 0, pvAllocOK := true }

/-- A host that records a different physical address than was written. -/
def envBadAddr : SetupEnv :=
  { pageAlloc := some 123904, readback := fun x => x + 4096,
    hostVerMajor := 1, hostVerMinor := 0, pvAllocOK := true }

theorem intel_vgpu_setup_shared_page_roundtrip_witness :
    ((intel_vgpu_setup_shared_page envBadAddr).ret = -Eio ∧
     (intel_vgpu_setup_shared_page envBadAddr).pageFreed = true ∧
     (intel_vgpu_setup_shared_page envBadAddr).pv = none) ∧
    ((intel_vgpu_setup_shared_page envGood).ret = 0 ∧
     (intel_vgpu_setup_shared_page envGood).pageAllocated = true ∧
     (intel_vgpu_setup_shared_page envGood).pageFreed = false ∧
     (intel_vgpu_setup_shared_page envGood).pv = some
       { shared_page_gpa := 123904
         enabled := true
         irq_off := PV_INTERRUPT_OFF
         elsp_off := (List.range I915_NUM_ENGINES).map
           (fun i => PV_ELSP_OFF + PV_SUBMISSION_SIZE * i)
         elsp_submitted := (List.range I915_NUM_ENGINES).map (fun _ => false)
         desc_off := PV_DESC_OFF
         cmds_off := PV_CMD_OFF
         desc := { addr := PV_CMD_OFF, size := PAGE_SIZE / 2,
                   head := 0, tail := 0, fence := 0, status := 0 }
         next_fence := 0 }) :=
  ⟨(intel_vgpu_setup_shared_page_roundtrip envBadAddr 123904 rfl rfl).1
      (Or.inl (by decide)),
   (intel_vgpu_setup_shared_page_roundtrip envGood 123904 rfl rfl).2 rfl rfl rfl⟩

/-- C7: capability negotiation adopts exactly the bitwise intersection
of the guest-requested and host-offered bitmasks; an empty intersection
disables PV entirely (no shared page, negotiation reports failure), a
nonempty one is adopted and the shared page is set up.  Concretely,
with A = bit 0, B = bit 2, C = bit 1: requesting set-of-A-and-B (5)
against an offer of set-of-A-and-C (3) grants exactly set-of-A (1), and
the operation table gated on B is not installed while the one gated on
A is. -/
theorem intel_vgpu_check_pv_caps_intersection (guest gvt : Nat) (env : SetupEnv)
    (hsetup : (intel_vgpu_setup_shared_page env).ret = 0) :
    (Nat.land guest gvt ≠ 0 →
      intel_vgpu_check_pv_caps true guest gvt env =
        (true, Nat.land guest gvt, (intel_vgpu_setup_shared_page env).pv)) ∧
    (Nat.land guest gvt = 0 →
      intel_vgpu_check_pv_caps true guest gvt env = (false, 0, none)) ∧
    Nat.land 5 3 = 1 ∧
    intel_vgpu_config_pv_caps true true (Nat.land 5 3) 4 = false ∧
    intel_vgpu_config_pv_caps true true (Nat.land 5 3) 1 = true := by
  refine ⟨?_, ?_, by decide, by decide, by decide⟩
  · intro hne
    unfold intel_vgpu_check_pv_caps
    rw [if_neg (by simp), if_neg hne, if_neg (by simp [hsetup])]
  · intro heq
    unfold intel_vgpu_check_pv_caps
    rw [if_neg (by simp), heq]
    simp

theorem intel_vgpu_check_pv_caps_intersection_witness :
    (Nat.land 5 3 ≠ 0 →
      intel_vgpu_check_pv_caps true 5 3 envGood =
        (true, Nat.land 5 3, (intel_vgpu_setup_shared_page envGood).pv)) ∧
    (Nat.land 5 3 = 0 →
      intel_vgpu_check_pv_caps true 5 3 envGood = (false, 0, none)) ∧
    Nat.land 5 3 = 1 ∧
    intel_vgpu_config_pv_caps true true (Nat.land 5 3) 4 = false ∧
    intel_vgpu_config_pv_caps true true (Nat.land 5 3) 1 = true :=
  intel_vgpu_check_pv_caps_intersection 5 3 envGood (by decide)

/-- C8: while the engine's submission slot has `submitted = true`, a run
of the submission service routine (tasklet) leaves the slot — its
descriptor and context payload and the flag itself — untouched:
dequeue-and-dispatch is only entered when the flag is false, and the
port-reclaim phase never writes the slot. -/
theorem vgpu_pv_submission_tasklet_slot_frozen (st : SchedState) (hostAck : Bool)
    (h : st.slot.submitted = true) :
    (vgpu_pv_submission_tasklet st hostAck).slot = st.slot := by
  unfold vgpu_pv_submission_tasklet reclaimPorts
  simp [h]

/-- A state whose slot carries an in-flight submission and whose queue
holds a runnable request, so a dispatch would overwrite the slot if the
guard were missing. -/
def stSubmitted : SchedState :=
  { inflight := []
    queue := [(5, [{ id := 2, ctx := 1, completed := false, lrc_desc := 77,
                     ctx_phys := 4096 }])]
    active := []
    slot := { descs := [31, 0], ctx_gpa := [8192, 0], submitted := true }
    queue_priority_hint := 5
    inEvents := [], outEvents := [], timeline := [], failedEio := [] }

theorem vgpu_pv_submission_tasklet_slot_frozen_witness :
    (vgpu_pv_submission_tasklet stSubmitted true).slot = stSubmitted.slot :=
  vgpu_pv_submission_tasklet_slot_frozen stSubmitted true rfl

/-- C9: after `pv_cancel_requests`, the inflight port array and the
pending priority queue are both empty; every request that was in a port
is marked failed/completed with `-Eio` exactly once and released
(`schedule_out`, one reference put) exactly once without being
re-submitted; every request that was queued is marked failed/completed
with `-Eio` exactly once and flushed to the timeline
(`__i915_request_submit`) exactly once without any reference put.  The
hypotheses are the scheduler's standing invariants: port requests have
been submitted (they sit on `engine->active.requests`, without
duplicates), queued requests have not. -/
theorem pv_cancel_requests_drains (st : SchedState)
    (hsub : ∀ rq ∈ st.inflight, rq ∈ st.active)
    (hinf : (st.inflight.map Request.id).Nodup)
    (hact : (st.active.map Request.id).Nodup)
    (hq : (((st.queue.map Prod.snd).flatten).map Request.id).Nodup)
    (hdisj : ∀ i ∈ ((st.queue.map Prod.snd).flatten).map Request.id,
       i ∉ st.active.map Request.id) :
    (pv_cancel_requests st).inflight = [] ∧
    (pv_cancel_requests st).queue = [] ∧
    (∀ rq ∈ st.inflight,
       (pv_cancel_requests st).failedEio.count rq.id = st.failedEio.count rq.id + 1 ∧
       (pv_cancel_requests st).outEvents.count rq.id = st.outEvents.count rq.id + 1 ∧
       (pv_cancel_requests st).timeline.count rq.id = st.timeline.count rq.id) ∧
    (∀ rq ∈ (st.queue.map Prod.snd).flatten,
       (pv_cancel_requests st).failedEio.count rq.id = st.failedEio.count rq.id + 1 ∧
       (pv_cancel_requests st).timeline.count rq.id = st.timeline.count rq.id + 1 ∧
       (pv_cancel_requests st).outEvents.count rq.id = st.outEvents.count rq.id) := by
  have eout : (pv_cancel_requests st).outEvents =
      st.outEvents ++ st.inflight.map Request.id := rfl
  have efail : (pv_cancel_requests st).failedEio =
      st.failedEio ++ st.active.map Request.id ++
        ((st.queue.map Prod.snd).flatten).map Request.id := rfl
  have etl : (pv_cancel_requests st).timeline =
      st.timeline ++ ((st.queue.map Prod.snd).flatten).map Request.id := rfl
  refine ⟨rfl, rfl, ?_, ?_⟩
  · intro rq hmem
    have hidact : rq.id ∈ st.active.map Request.id :=
      List.mem_map_of_mem Request.id (hsub rq hmem)
    have hidinf : rq.id ∈ st.inflight.map Request.id :=
      List.mem_map_of_mem Request.id hmem
    have hnotq : rq.id ∉ ((st.queue.map Prod.snd).flatten).map Request.id := by
      intro hin
      exact hdisj rq.id hin hidact
    have c1 : (st.active.map Request.id).count rq.id = 1 :=
      (List.nodup_iff_count_eq_one.mp hact) rq.id hidact
    have c2 : (st.inflight.map Request.id).count rq.id = 1 :=
      (List.nodup_iff_count_eq_one.mp hinf) rq.id hidinf
    have c3 : (((st.queue.map Prod.snd).flatten).map Request.id).count rq.id = 0 :=
      List.count_eq_zero_of_not_mem hnotq
    rw [efail, eout, etl]
    simp only [List.count_append]
    rw [c1, c2, c3]
    omega
  · intro rq hmem
    have hidq : rq.id ∈ ((st.queue.map Prod.snd).flatten).map Request.id :=
      List.mem_map_of_mem Request.id hmem
    have hnotact : rq.id ∉ st.active.map Request.id := hdisj rq.id hidq
    have hnotinf : rq.id ∉ st.inflight.map Request.id := by
      intro hin
      rcases List.mem_map.mp hin with ⟨r, hr, hrid⟩
      have : rq.id ∈ st.active.map Request.id := hrid ▸
        List.mem_map_of_mem Request.id (hsub r hr)
      exact hnotact this
    have c1 : (st.active.map Request.id).count rq.id = 0 :=
      List.count_eq_zero_of_not_mem hnotact
    have c2 : (st.inflight.map Request.id).count rq.id = 0 :=
      List.count_eq_zero_of_not_mem hnotinf
    have c3 : (((st.queue.map Prod.snd).flatten).map Request.id).count rq.id = 1 :=
      (List.nodup_iff_count_eq_one.mp hq) rq.id hidq
    rw [efail, eout, etl]
    simp only [List.count_append]
    rw [c1, c2, c3]
    omega

/-- A two-port, one-queued-request state: request 1 is inflight (and on
the active list with already-retired request 4 absent), request 3 is
queued. -/
def stCancel : SchedState :=
  { inflight := [{ id := 1, ctx := 1, completed := false, lrc_desc := 11,
                   ctx_phys := 1024 }]
    queue := [(0, [{ id := 3, ctx := 2, completed := false, lrc_desc := 33,
                     ctx_phys := 2048 }])]
    active := [{ id := 1, ctx := 1, completed := false, lrc_desc := 11,
                 ctx_phys := 1024 },
               { id := 2, ctx := 1, completed := false, lrc_desc := 22,
                 ctx_phys := 1536 }]
    slot := { descs := [0, 0], ctx_gpa := [0, 0], submitted := false }
    queue_priority_hint := 0
    inEvents := [1], outEvents := [], timeline := [], failedEio := [] }

theorem pv_cancel_requests_drains_witness :
    (pv_cancel_requests stCancel).inflight = [] ∧
    (pv_cancel_requests stCancel).queue = [] ∧
    (∀ rq ∈ stCancel.inflight,
       (pv_cancel_requests stCancel).failedEio.count rq.id =
         stCancel.failedEio.count rq.id + 1 ∧
       (pv_cancel_requests stCancel).outEvents.count rq.id =
         stCancel.outEvents.count rq.id + 1 ∧
       (pv_cancel_requests stCancel).timeline.count rq.id =
         stCancel.timeline.count rq.id) ∧
    (∀ rq ∈ (stCancel.queue.map Prod.snd).flatten,
       (pv_cancel_requests stCancel).failedEio.count rq.id =
         stCancel.failedEio.count rq.id + 1 ∧
       (pv_cancel_requests stCancel).timeline.count rq.id =
         stCancel.timeline.count rq.id + 1 ∧
       (pv_cancel_requests stCancel).outEvents.count rq.id =
         stCancel.outEvents.count rq.id) :=
  pv_cancel_requests_drains stCancel (by decide) (by decide) (by decide)
    (by decide) (by decide)

/-! ### Fence evolution from a freshly set-up channel (C10) -/

/-- The channel after `k` fence allocations. -/
def iterate_fences (pv : PVChannel) : Nat → PVChannel
  | 0 => pv
  | Nat.succ k => (pv_get_next_fence (iterate_fences pv k)).2

theorem iterate_fences_next_fence (pv : PVChannel) (h0 : pv.next_fence = 0) :
    ∀ k, (iterate_fences pv k).next_fence = k % U32_MOD := by
  intro k
  induction k with
  | zero => simpa [iterate_fences] using h0
  | succ n ih =>
      show (pv_get_next_fence (iterate_fences pv n)).2.next_fence = (n + 1) % U32_MOD
      have : (pv_get_next_fence (iterate_fences pv n)).2.next_fence =
          ((iterate_fences pv n).next_fence + 1) % U32_MOD := rfl
      rw [this, ih, Nat.add_mod n 1 U32_MOD,
        Nat.mod_eq_of_lt (show 1 < U32_MOD by norm_num [U32_MOD])]

/-- C10: a successful shared-page setup leaves the channel fence
counter at zero (the pv structure is `kzalloc`ed) and the descriptor
fence field at zero (the page is zeroed); each send pre-increments the
counter, so the `k`-th send after setup awaits fence `k` — in
particular the first send awaits fence 1, and no awaited fence is 0 or
equal to the descriptor's initial fence until the 32-bit counter
wraps (`k < 2^32`). -/
theorem pv_fence_nonzero_after_setup (env : SetupEnv) (gpa : Nat)
    (halloc : env.pageAlloc = some gpa) (hrb : env.readback gpa = gpa)
    (hvM : env.hostVerMajor = PV_MAJOR) (hvm : env.hostVerMinor = PV_MINOR)
    (hpa : env.pvAllocOK = true) (pvs : PVSetup)
    (hpv : (intel_vgpu_setup_shared_page env).pv = some pvs) :
    pvs.next_fence = 0 ∧ pvs.desc.fence = 0 ∧
    ∀ ch : PVChannel, ch.next_fence = pvs.next_fence →
      ∀ k, 1 ≤ k → k < U32_MOD →
        (pv_get_next_fence (iterate_fences ch (k - 1))).1 = k ∧
        (pv_get_next_fence (iterate_fences ch (k - 1))).1 ≠ 0 ∧
        (pv_get_next_fence (iterate_fences ch (k - 1))).1 ≠ pvs.desc.fence := by
  have hval : (intel_vgpu_setup_shared_page env).pv = some
      { shared_page_gpa := gpa
        enabled := true
        irq_off := PV_INTERRUPT_OFF
        elsp_off := (List.range I915_NUM_ENGINES).map
          (fun i => PV_ELSP_OFF + PV_SUBMISSION_SIZE * i)
        elsp_submitted := (List.range I915_NUM_ENGINES).map (fun _ => false)
        desc_off := PV_DESC_OFF
        cmds_off := PV_CMD_OFF
        desc := { addr := PV_CMD_OFF, size := PAGE_SIZE / 2,
                  head := 0, tail := 0, fence := 0, status := 0 }
        next_fence := 0 } := by
    unfold intel_vgpu_setup_shared_page
    rw [halloc]
    dsimp only
    rw [if_neg (by simp [hrb]), if_neg (by simp [hvM, hvm]), if_neg (by simp [hpa])]
  have hrec := Option.some.inj (hval.symm.trans hpv)
  have hnf : pvs.next_fence = 0 := by rw [← hrec]
  have hdf : pvs.desc.fence = 0 := by rw [← hrec]
  refine ⟨hnf, hdf, ?_⟩
  intro ch hch k hk1 hk2
  have hch0 : ch.next_fence = 0 := by rw [hch, hnf]
  have hit := iterate_fences_next_fence ch hch0 (k - 1)
  have hfe : (pv_get_next_fence (iterate_fences ch (k - 1))).1 =
      ((iterate_fences ch (k - 1)).next_fence + 1) % U32_MOD := rfl
  have hk1m : k - 1 < U32_MOD := by omega
  have : (pv_get_next_fence (iterate_fences ch (k - 1))).1 = k := by
    rw [hfe, hit, Nat.mod_eq_of_lt hk1m]
    rw [show k - 1 + 1 = k from by omega]
    exact Nat.mod_eq_of_lt hk2
  refine ⟨this, by omega, ?_⟩
  rw [this, hdf]
  omega

/-- The record produced by a successful setup in `envGood`. -/
def pvsGood : PVSetup :=
  { shared_page_gpa := 123904
    enabled := true
    irq_off := PV_INTERRUPT_OFF
    elsp_off := (List.range I915_NUM_ENGINES).map
      (fun i => PV_ELSP_OFF + PV_SUBMISSION_SIZE * i)
    elsp_submitted := (List.range I915_NUM_ENGINES).map (fun _ => false)
    desc_off := PV_DESC_OFF
    cmds_off := PV_CMD_OFF
    desc := { addr := PV_CMD_OFF, size := PAGE_SIZE / 2,
              head := 0, tail := 0, fence := 0, status := 0 }
    next_fence := 0 }

theorem pv_fence_nonzero_after_setup_witness :
    pvsGood.next_fence = 0 ∧ pvsGood.desc.fence = 0 ∧
    ((pv_get_next_fence (iterate_fences chanW 0)).1 = 1 ∧
     (pv_get_next_fence (iterate_fences chanW 0)).1 ≠ 0 ∧
     (pv_get_next_fence (iterate_fences chanW 0)).1 ≠ pvsGood.desc.fence) :=
  have h := pv_fence_nonzero_after_setup envGood 123904 rfl rfl rfl rfl rfl
    pvsGood (by decide)
  ⟨h.1, h.2.1, h.2.2 chanW rfl 1 (by decide) (by decide)⟩

end I915PV
